import Mathlib

/-!
Verification of the extension augmentation core of `powerbi-report-authoring`.

The repository source (`src/src/powerbi-report-authoring.ts`) contains the
bootstrap routine `startAuthoring` (lines 156-160), the module-load call to it
(line 162), and ambient type declarations of the augmented methods on
`Report`, `Page` and `VisualDescriptor`.  The extension units themselves
(module `./extensions`) and the method bodies are not part of the available
source, so they are modelled from the specification (sections 4.1, 4.2, 6 and
7 of the design document), as noted in the relevant doc comments.
-/

namespace PowerBIAuthoring

/-- The three kinds of Host Handle types of the host object model:
Report, Page, Visual (the targets of the three `declare module` blocks
in the source). -/
inductive TargetType where
  | report
  | page
  | visual
deriving DecidableEq, Repr

/-- A method name on a behavior table (e.g. "createVisual"). -/
abbrev MethodName := String

/-- An opaque method implementation, identified by a code. -/
abbrev MethodImpl := Nat

/-- Modelled from the spec (section 4.2): the shared type-level behavior
table (the prototype of a host class).  It maps a target type and a
method name to the installed implementation, if any. -/
def BehaviorTable := TargetType → MethodName → Option MethodImpl

/-- Property assignment on a behavior table: the embedding of a JS
prototype assignment `Type.prototype[name] = impl`. -/
def BehaviorTable.set (t : BehaviorTable) (tt : TargetType) (m : MethodName)
    (i : MethodImpl) : BehaviorTable :=
  fun tt2 m2 => if tt2 = tt ∧ m2 = m then some i else t tt2 m2

/-- Modelled from the spec (sections 3 and 4.1): an extension unit, a named
descriptor owning a fixed set of (target type, method name, implementation)
triples it installs.  `throws` models a unit whose initialize() raises an
exception during installation (spec section 4.1, failure policy). -/
structure ExtensionUnit where
  name : String
  installs : List (TargetType × MethodName × MethodImpl)
  throws : Bool
deriving DecidableEq, Repr

/-- Install a list of (target, method, impl) triples onto a behavior table
in order, by property assignment. -/
def applyInstalls (ps : List (TargetType × MethodName × MethodImpl))
    (t : BehaviorTable) : BehaviorTable :=
  ps.foldl (fun tb p => tb.set p.1 p.2.1 p.2.2) t

/-- Modelled from the spec (section 4.2): a unit's initialize() entry point,
absent from the available source (module `./extensions`).  It either throws
(modelled as `Except.error` carrying the unit's name) or installs the unit's
methods onto the shared behavior table by property assignment. -/
def initializeUnit (u : ExtensionUnit) (t : BehaviorTable) :
    Except String BehaviorTable :=
  if u.throws then Except.error u.name
  else Except.ok (applyInstalls u.installs t)

/-- Embedding of `startAuthoring` (src/src/powerbi-report-authoring.ts,
lines 156-160):

  export function startAuthoring(): void \x7b
      extensions.forEach((extension) => \x7b
          extension.initialize();
      \x7d);
  \x7d

The module-global registry `extensions` becomes the explicit parameter
`exts`; the mutated prototype state becomes the explicit `t`.  The result
pairs the trace of units whose initialize() was invoked (in invocation
order) with the outcome: an exception thrown by one initialize() propagates
out of `forEach`, stopping the iteration.  The function is total and
synchronous, mirroring the synchronous enumeration of the source. -/
def startAuthoring (exts : List ExtensionUnit) (t : BehaviorTable) :
    List ExtensionUnit × Except String BehaviorTable :=
  match exts with
  | [] => ([], Except.ok t)
  | u :: rest =>
    match initializeUnit u t with
    | Except.error e => ([u], Except.error e)
    | Except.ok t2 =>
      let res := startAuthoring rest t2
      (u :: res.1, res.2)

/-- The table obtained by installing every unit's methods in registration
order (the pure effect of a throw-free bootstrap). -/
def installAll (exts : List ExtensionUnit) (t : BehaviorTable) : BehaviorTable :=
  exts.foldl (fun tb u => applyInstalls u.installs tb) t

/-- The concatenation of all units' install triples, in registration order. -/
def allInstalls (exts : List ExtensionUnit) :
    List (TargetType × MethodName × MethodImpl) :=
  exts.foldr (fun u acc => u.installs ++ acc) []

/-- The last install triple of a list matching a given key, if any
(assignment semantics: the last write to a property wins). -/
def lastInstall : List (TargetType × MethodName × MethodImpl) →
    TargetType → MethodName → Option MethodImpl
  | [], _, _ => none
  | p :: ps, tt, m =>
    match lastInstall ps tt m with
    | some v => some v
    | none => if tt = p.1 ∧ m = p.2.1 then some p.2.2 else none

/-- A Host Handle instance: it records its kind, its identity within the
remote document, and (for the instance-independence claim) whether it was
constructed before bootstrap ran.  Method lookup never consults the latter
two fields: it goes through the shared behavior table of the instance's
kind, exactly as JS prototype lookup does. -/
structure HostHandle where
  kind : TargetType
  identity : String
  constructedBeforeBootstrap : Bool
deriving DecidableEq, Repr

/-- Method lookup on a concrete handle instance: delegates to the shared
type-level behavior table of the handle's kind. -/
def methodOn (t : BehaviorTable) (h : HostHandle) (m : MethodName) :
    Option MethodImpl :=
  t h.kind m

/-- The module top level, followed by an explicit call of the exported
`startAuthoring` through the public surface (the source exports
`startAuthoring` with no guard, line 156, and calls it at load, line 162).
Returns the combined trace of initialize() invocations across both calls. -/
def loadThenExplicitCall (exts : List ExtensionUnit) (t : BehaviorTable) :
    List ExtensionUnit :=
  let first := startAuthoring exts t
  let t2 := match first.2 with
    | Except.ok tb => tb
    | Except.error _ => t
  first.1 ++ (startAuthoring exts t2).1

/-- An event of a process that imports the module: either some unit's
initialize() ran, or importer code invoked an augmented method. -/
inductive ModuleEvent where
  | initializedUnit (u : ExtensionUnit)
  | augmentedCall (m : MethodName)
deriving DecidableEq, Repr

/-- Embedding of the module top level (src/src/powerbi-report-authoring.ts,
line 162: `startAuthoring();`): evaluating the module runs the bootstrap,
so the module-evaluation trace is the trace of initialize() invocations. -/
def moduleEvaluationTrace (exts : List ExtensionUnit) (t : BehaviorTable) :
    List ModuleEvent :=
  (startAuthoring exts t).1.map ModuleEvent.initializedUnit

/-- Modelled from ES module evaluation order: a static importer's code runs
only after the imported module's body has been evaluated, so the process
trace is the module-evaluation trace followed by the importer's augmented
method calls. -/
def importerProcessTrace (exts : List ExtensionUnit) (t : BehaviorTable)
    (calls : List MethodName) : List ModuleEvent :=
  moduleEvaluationTrace exts t ++ calls.map ModuleEvent.augmentedCall

/-- An Error Value: a structured value describing a failure reported by the
remote side (powerbi-models IError; opaque here beyond a message). -/
structure IError where
  message : String
deriving DecidableEq, Repr

/-- The outcome of a Remote Operation Channel request (spec section 6):
a success value, a remote-reported domain error, or a transport failure. -/
inductive RemoteOutcome (α : Type) where
  | success (value : α)
  | remoteError (e : IError)
  | transportFailure (msg : String)
deriving DecidableEq, Repr

/-- The kind of a rejected outcome of an augmented method, distinguishing
the three error kinds of spec section 7. -/
inductive RejectKind where
  | transport (msg : String)
  | remoteErr (e : IError)
  | localCheck (msg : String)
deriving DecidableEq, Repr

/-- The outcome delivered to the caller of an augmented method: a resolved
value or a rejection (the settled state of the returned promise). -/
inductive MethodResult (α : Type) where
  | resolved (value : α)
  | rejected (r : RejectKind)
deriving DecidableEq, Repr

/-- Modelled from the spec (section 4.2, step 2): the outcome mapping used
by augmented methods whose declared result type carries no Error Value:
success resolves with the value, a remote-reported error and a transport
failure both reject, with distinguishable kinds. -/
def mapOutcome {α : Type} : RemoteOutcome α → MethodResult α
  | RemoteOutcome.success v => MethodResult.resolved v
  | RemoteOutcome.remoteError e => MethodResult.rejected (RejectKind.remoteErr e)
  | RemoteOutcome.transportFailure m => MethodResult.rejected (RejectKind.transport m)

/-- Modelled from the spec (section 7, item 3): the outcome mapping used by
augmented methods whose declared result type is an Error Value
(Promise of IError in the source declarations, lines 100 and 116): success
resolves with no value, a remote-reported error resolves carrying the Error
Value, a transport failure rejects. -/
def mapErrorCarrying {α : Type} : RemoteOutcome α → MethodResult (Option IError)
  | RemoteOutcome.success _ => MethodResult.resolved none
  | RemoteOutcome.remoteError e => MethodResult.resolved (some e)
  | RemoteOutcome.transportFailure m => MethodResult.rejected (RejectKind.transport m)

/-- An opaque layout descriptor (powerbi-models IVisualLayout). -/
abbrev VisualLayout := Nat

/-- An opaque Field Target (powerbi-models IBaseTarget): a data item that
can occupy a data-role slot. -/
abbrev FieldTarget := Nat

/-- A created-visual response (models IVisualResponse): the identity of the
newly created visual. -/
structure VisualResponse where
  visualName : String
deriving DecidableEq, Repr

/-- The request payload issued by createVisual: the page's identity, the
visual type, and the optional layout (absent layout requests best-effort
automatic placement from the remote side). -/
structure CreateVisualRequest where
  pageIdentity : String
  visualType : String
  layout : Option VisualLayout
deriving DecidableEq, Repr

/-- The request payload issued by addDataField. -/
structure AddFieldRequest where
  visualIdentity : String
  dataRole : String
  field : FieldTarget
deriving DecidableEq, Repr

/-- The request payload issued by removeDataField. -/
structure RemoveFieldRequest where
  visualIdentity : String
  dataRole : String
  index : Nat
deriving DecidableEq, Repr

/-- Modelled from the spec: the body of `Page.createVisual` (declared at
src/src/powerbi-report-authoring.ts line 65, implementation not in the
available source).  It performs no local validation of the absent layout,
constructs the request with the layout passed through verbatim (absent
layout deferring placement to the remote side, per the declaration's doc
comment, line 61), delegates to the channel and maps the outcome. -/
def createVisual (ch : CreateVisualRequest → RemoteOutcome VisualResponse)
    (page : String) (visualType : String) (layout : Option VisualLayout) :
    MethodResult VisualResponse :=
  mapOutcome (ch { pageIdentity := page, visualType := visualType, layout := layout })

/-- Modelled from the spec: the body of `VisualDescriptor.addDataField`
(declared at line 100, implementation not in the available source): it
delegates to the channel and maps the outcome with the error-carrying
mapping of spec section 7. -/
def addDataField (ch : AddFieldRequest → RemoteOutcome Unit)
    (visual : String) (dataRole : String) (field : FieldTarget) :
    MethodResult (Option IError) :=
  mapErrorCarrying (ch { visualIdentity := visual, dataRole := dataRole, field := field })

/-- Modelled from the spec: the body of `VisualDescriptor.removeDataField`
(declared at line 116, implementation not in the available source): it
delegates to the channel (an out-of-range index is not checked locally,
only the remote side knows the field count, spec section 4.2) and maps the
outcome with the error-carrying mapping of spec section 7. -/
def removeDataField (ch : RemoveFieldRequest → RemoteOutcome Unit)
    (visual : String) (dataRole : String) (index : Nat) :
    MethodResult (Option IError) :=
  mapErrorCarrying (ch { visualIdentity := visual, dataRole := dataRole, index := index })

/-- Modelled from the spec (section 8, stub remote side): a remote document
process holding `count` fields in each data role; it reports an out-of-range
condition for a removal index at or past the field count, and accepts the
removal otherwise. -/
def stubRemoveChannel (count : Nat) : RemoveFieldRequest → RemoteOutcome Unit :=
  fun req =>
    if req.index < count then RemoteOutcome.success ()
    else RemoteOutcome.remoteError { message := "index out of range" }

/-- A stub remote side that accepts an absent layout and returns a valid
created-visual response (spec section 8). -/
def stubCreateChannel : CreateVisualRequest → RemoteOutcome VisualResponse :=
  fun req => RemoteOutcome.success { visualName := req.visualType ++ "Visual" }

/-- An empty behavior table (no method installed). -/
def emptyTable : BehaviorTable := fun _ _ => none

/-- A sample extension unit used by witnesses: installs createVisual on
Page. -/
def sampleUnitA : ExtensionUnit :=
  { name := "pageExtensions"
    installs := [(TargetType.page, "createVisual", 10), (TargetType.page, "deleteVisual", 11)]
    throws := false }

/-- A sample extension unit used by witnesses: installs data-role methods
on Visual. -/
def sampleUnitB : ExtensionUnit :=
  { name := "visualExtensions"
    installs := [(TargetType.visual, "addDataField", 20)]
    throws := false }

/-- A sample extension unit whose initialize() throws. -/
def sampleBadUnit : ExtensionUnit :=
  { name := "badUnit"
    installs := [(TargetType.report, "getVisualCapabilities", 30)]
    throws := true }

/-! ## Helper lemmas -/

/-- A throw-free bootstrap invokes every unit once in order and installs
everything. -/
theorem startAuthoring_noThrow (exts : List ExtensionUnit) (t : BehaviorTable)
    (h : ∀ u ∈ exts, u.throws = false) :
    startAuthoring exts t = (exts, Except.ok (installAll exts t)) := by
  induction exts generalizing t with
  | nil => rfl
  | cons u rest ih =>
    have hu : u.throws = false := h u (List.mem_cons_self u rest)
    have hrest : ∀ v ∈ rest, v.throws = false := fun v hv => h v (List.mem_cons_of_mem u hv)
    simp only [startAuthoring, initializeUnit, hu, if_neg Bool.false_ne_true,
      ih (applyInstalls u.installs t) hrest, installAll, List.foldl_cons]

/-- If the bootstrap returns successfully, every unit was throw-free, the
trace is the full registration list, and the resulting table is the full
installation. -/
theorem startAuthoring_ok_inv (exts : List ExtensionUnit) (t t2 : BehaviorTable)
    (tr : List ExtensionUnit)
    (h : startAuthoring exts t = (tr, Except.ok t2)) :
    tr = exts ∧ t2 = installAll exts t := by
  induction exts generalizing t tr with
  | nil =>
    simp only [startAuthoring] at h
    obtain ⟨h1, h2⟩ := Prod.mk.injEq _ _ _ _ ▸ h
    exact ⟨h1.symm ▸ rfl, by simpa [installAll] using (Except.ok.injEq _ _ ▸ h2).symm⟩
  | cons u rest ih =>
    by_cases hu : u.throws
    · simp only [startAuthoring, initializeUnit, hu, if_pos rfl] at h
      exact absurd (congrArg Prod.snd h) (by simp)
    · simp only [startAuthoring, initializeUnit, hu, if_neg hu] at h
      have h1 : tr = u :: (startAuthoring rest (applyInstalls u.installs t)).1 :=
        (congrArg Prod.fst h).symm
      have h2 : (startAuthoring rest (applyInstalls u.installs t)).2 = Except.ok t2 :=
        congrArg Prod.snd h
      obtain ⟨ha, hb⟩ := ih (applyInstalls u.installs t)
        (startAuthoring rest (applyInstalls u.installs t)).1
        (by rw [← h2])
      refine ⟨by rw [h1, ha], ?_⟩
      rw [hb]
      simp [installAll, List.foldl_cons]

/-- Pointwise characterisation of installation: the last assignment to a
key wins, and an unassigned key keeps its prior binding. -/
theorem applyInstalls_apply (ps : List (TargetType × MethodName × MethodImpl))
    (t : BehaviorTable) (tt : TargetType) (m : MethodName) :
    applyInstalls ps t tt m =
      (match lastInstall ps tt m with
        | some v => some v
        | none => t tt m) := by
  induction ps generalizing t with
  | nil => rfl
  | cons p ps ih =>
    simp only [applyInstalls, List.foldl_cons] at *
    rw [ih]
    show (match lastInstall ps tt m with
      | some v => some v
      | none => BehaviorTable.set t p.1 p.2.1 p.2.2 tt m) = _
    cases hl : lastInstall ps tt m with
    | some v => simp [lastInstall, hl]
    | none =>
      simp only [lastInstall, hl, BehaviorTable.set]
      by_cases hc : tt = p.1 ∧ m = p.2.1
      · simp [hc]
      · simp [hc]

/-- Re-running an installation sequence leaves the table unchanged:
property assignment of the same implementations is idempotent. -/
theorem applyInstalls_idem (ps : List (TargetType × MethodName × MethodImpl))
    (t : BehaviorTable) :
    applyInstalls ps (applyInstalls ps t) = applyInstalls ps t := by
  funext tt m
  rw [applyInstalls_apply, applyInstalls_apply]
  cases hl : lastInstall ps tt m <;> simp

/-- Installing all units equals installing the concatenation of all their
triples. -/
theorem installAll_eq_applyInstalls (exts : List ExtensionUnit) (t : BehaviorTable) :
    installAll exts t = applyInstalls (allInstalls exts) t := by
  induction exts generalizing t with
  | nil => rfl
  | cons u rest ih =>
    show installAll rest (applyInstalls u.installs t) = _
    rw [ih]
    show _ = applyInstalls (u.installs ++ allInstalls rest) t
    simp [applyInstalls, List.foldl_append]

/-- Running the full installation twice equals running it once. -/
theorem installAll_idem (exts : List ExtensionUnit) (t : BehaviorTable) :
    installAll exts (installAll exts t) = installAll exts t := by
  rw [installAll_eq_applyInstalls, installAll_eq_applyInstalls]
  exact applyInstalls_idem _ _

/-- A key that some triple of the list assigns has a last assignment. -/
theorem lastInstall_isSome_of_mem (ps : List (TargetType × MethodName × MethodImpl))
    (p : TargetType × MethodName × MethodImpl) (hp : p ∈ ps) :
    (lastInstall ps p.1 p.2.1).isSome := by
  induction ps with
  | nil => exact absurd hp (List.not_mem_nil p)
  | cons q ps ih =>
    show (match lastInstall ps p.1 p.2.1 with
      | some v => some v
      | none => if p.1 = q.1 ∧ p.2.1 = q.2.1 then some q.2.2 else none).isSome
    rcases List.mem_cons.mp hp with hq | hq
    · cases hl : lastInstall ps p.1 p.2.1 with
      | some v => simp
      | none => simp [hq]
    · cases hl : lastInstall ps p.1 p.2.1 with
      | some v => simp
      | none =>
        have := ih hq
        rw [hl] at this
        exact absurd this (by simp)

/-- A triple installed by a registered unit occurs in the concatenation of
all installs. -/
theorem mem_allInstalls (exts : List ExtensionUnit) (u : ExtensionUnit)
    (p : TargetType × MethodName × MethodImpl)
    (hu : u ∈ exts) (hp : p ∈ u.installs) : p ∈ allInstalls exts := by
  induction exts with
  | nil => exact absurd hu (List.not_mem_nil u)
  | cons v rest ih =>
    show p ∈ v.installs ++ allInstalls rest
    rcases List.mem_cons.mp hu with hv | hv
    · exact List.mem_append.mpr (Or.inl (hv ▸ hp))
    · exact List.mem_append.mpr (Or.inr (ih hv))

/-! ## Claim theorems -/

/-- Claim C1: when the bootstrap entry point `startAuthoring` is invoked
(and no unit's initialize() throws), it calls initialize() exactly once on
every registered extension unit, in registration order — the invocation
trace is exactly the registration list — and, the embedding being a total
synchronous function, it returns only after every initialize() call has
been made, without awaiting any in-flight remote work. -/
theorem startAuthoring_initializes_each_registered_unit_once_in_order
    (exts : List ExtensionUnit) (t : BehaviorTable)
    (h : ∀ u ∈ exts, u.throws = false) :
    (startAuthoring exts t).1 = exts := by
  rw [startAuthoring_noThrow exts t h]

/-- Witness for C1: a concrete two-unit registry is traced in order. -/
theorem startAuthoring_initializes_each_registered_unit_once_in_order_witness :
    (∀ u ∈ [sampleUnitA, sampleUnitB], u.throws = false) ∧
    (startAuthoring [sampleUnitA, sampleUnitB] emptyTable).1 =
      [sampleUnitA, sampleUnitB] :=
  ⟨by decide,
   startAuthoring_initializes_each_registered_unit_once_in_order
     [sampleUnitA, sampleUnitB] emptyTable (by decide)⟩

/-- Claim C2, counterexample: the claim that no execution path through the
public surface invokes a unit's initialize() a second time is false on the
code: `startAuthoring` is exported without any guard (line 156), so module
load followed by one explicit call of the exported entry point invokes the
registered unit's initialize() twice. -/
theorem loadThenExplicitCall_reinvokes_unit_initialization :
    ¬ (∀ u ∈ ([sampleUnitA] : List ExtensionUnit),
        (loadThenExplicitCall [sampleUnitA] emptyTable).count u ≤ 1) := by
  decide

/-- Claim C2, amended: the module-load side effect (line 162) triggers the
bootstrap exactly once, so after load each registered unit's initialize()
has been invoked exactly once; but `startAuthoring` is exported and
unguarded, so a further call through the public surface invokes every
unit's initialize() again (twice in total). -/
theorem bootstrap_once_at_load_but_reinvocable_via_export
    (exts : List ExtensionUnit) (t : BehaviorTable) (u : ExtensionUnit)
    (hnd : exts.Nodup) (h : ∀ v ∈ exts, v.throws = false) (hu : u ∈ exts) :
    (startAuthoring exts t).1.count u = 1 ∧
    (loadThenExplicitCall exts t).count u = 2 := by
  have h1 := startAuthoring_noThrow exts t h
  have h2 := startAuthoring_noThrow exts (installAll exts t) h
  have hcount : exts.count u = 1 := List.count_eq_one_of_mem hnd hu
  constructor
  · rw [h1]
    exact hcount
  · have hc : loadThenExplicitCall exts t = exts ++ exts := by
      simp only [loadThenExplicitCall, h1, h2]
    rw [hc, List.count_append, hcount]

/-- Witness for the amended C2: with the concrete two-unit registry, the
first unit's initialize() runs once at load and twice after an explicit
re-invocation. -/
theorem bootstrap_once_at_load_but_reinvocable_via_export_witness :
    (([sampleUnitA, sampleUnitB] : List ExtensionUnit).Nodup ∧
      (∀ v ∈ [sampleUnitA, sampleUnitB], v.throws = false) ∧
      sampleUnitA ∈ [sampleUnitA, sampleUnitB]) ∧
    ((startAuthoring [sampleUnitA, sampleUnitB] emptyTable).1.count sampleUnitA = 1 ∧
      (loadThenExplicitCall [sampleUnitA, sampleUnitB] emptyTable).count sampleUnitA = 2) :=
  ⟨⟨by decide, by decide, by decide⟩,
   bootstrap_once_at_load_but_reinvocable_via_export
     [sampleUnitA, sampleUnitB] emptyTable sampleUnitA
     (by decide) (by decide) (by decide)⟩

/-- Claim C3: if the initialize() of some registered unit throws during
bootstrap, the exception propagates unswallowed out of `startAuthoring`
(the outcome is that very error), and the initialize() of every unit
registered after the throwing unit is not invoked (the trace stops at the
throwing unit). -/
theorem initialize_throw_propagates_and_halts_iteration
    (pre post : List ExtensionUnit) (bad : ExtensionUnit) (t : BehaviorTable) :
    (∀ u ∈ pre, u.throws = false) → bad.throws = true →
    (startAuthoring (pre ++ bad :: post) t).2 = Except.error bad.name ∧
    (startAuthoring (pre ++ bad :: post) t).1 = pre ++ [bad] := by
  induction pre generalizing t with
  | nil =>
    intro _ hbad
    constructor <;> simp [startAuthoring, initializeUnit, hbad]
  | cons u pre ih =>
    intro hpre hbad
    have hu : u.throws = false := hpre u (List.mem_cons_self _ _)
    have hpre2 : ∀ v ∈ pre, v.throws = false :=
      fun v hv => hpre v (List.mem_cons_of_mem _ hv)
    obtain ⟨ih1, ih2⟩ := ih (applyInstalls u.installs t) hpre2 hbad
    constructor <;>
      simp [startAuthoring, initializeUnit, hu, ih1, ih2]

/-- Witness for C3: a concrete registry whose second unit throws: the error
carries its name and the third unit is never initialized. -/
theorem initialize_throw_propagates_and_halts_iteration_witness :
    ((∀ u ∈ [sampleUnitA], u.throws = false) ∧ sampleBadUnit.throws = true) ∧
    ((startAuthoring ([sampleUnitA] ++ sampleBadUnit :: [sampleUnitB]) emptyTable).2 =
        Except.error sampleBadUnit.name ∧
      (startAuthoring ([sampleUnitA] ++ sampleBadUnit :: [sampleUnitB]) emptyTable).1 =
        [sampleUnitA] ++ [sampleBadUnit]) :=
  ⟨⟨by decide, by decide⟩,
   initialize_throw_propagates_and_halts_iteration
     [sampleUnitA] [sampleUnitB] sampleBadUnit emptyTable (by decide) (by decide)⟩

/-- Claim C4: invoking the bootstrap entry point a second time is
idempotent: the first throw-free call installs `installAll exts t`, and a
second call over that surface succeeds and leaves the behavior table — and
hence the behavior of every installed method — exactly the same, with no
duplication or corruption (property assignment of the same implementations
is idempotent). -/
theorem second_bootstrap_call_is_idempotent
    (exts : List ExtensionUnit) (t : BehaviorTable)
    (h : ∀ u ∈ exts, u.throws = false) :
    (startAuthoring exts t).2 = Except.ok (installAll exts t) ∧
    (startAuthoring exts (installAll exts t)).2 = Except.ok (installAll exts t) := by
  constructor
  · rw [startAuthoring_noThrow exts t h]
  · rw [startAuthoring_noThrow exts (installAll exts t) h, installAll_idem]

/-- Witness for C4: the concrete two-unit registry bootstrapped twice ends
with the same installed table. -/
theorem second_bootstrap_call_is_idempotent_witness :
    (∀ u ∈ [sampleUnitA, sampleUnitB], u.throws = false) ∧
    ((startAuthoring [sampleUnitA, sampleUnitB] emptyTable).2 =
        Except.ok (installAll [sampleUnitA, sampleUnitB] emptyTable) ∧
      (startAuthoring [sampleUnitA, sampleUnitB]
          (installAll [sampleUnitA, sampleUnitB] emptyTable)).2 =
        Except.ok (installAll [sampleUnitA, sampleUnitB] emptyTable)) :=
  ⟨by decide,
   second_bootstrap_call_is_idempotent [sampleUnitA, sampleUnitB] emptyTable (by decide)⟩

/-- Claim C10: evaluating the module runs `startAuthoring()` once as a
module-load side effect (line 162), and by ES module evaluation order an
importer's code runs only afterwards: the importer process trace is the
full in-order initialization of every registered unit followed by the
importer's augmented-method calls, and every unit's initialization event
already lies in the module-evaluation prefix — so no augmented method is
reachable before initialization has run and no consumer needs to call the
bootstrap explicitly. -/
theorem module_import_bootstraps_before_importer_code
    (exts : List ExtensionUnit) (t : BehaviorTable) (calls : List MethodName)
    (h : ∀ u ∈ exts, u.throws = false) :
    importerProcessTrace exts t calls =
      exts.map ModuleEvent.initializedUnit ++ calls.map ModuleEvent.augmentedCall ∧
    ∀ u ∈ exts, ModuleEvent.initializedUnit u ∈ moduleEvaluationTrace exts t := by
  have h1 := startAuthoring_noThrow exts t h
  constructor
  · simp [importerProcessTrace, moduleEvaluationTrace, h1]
  · intro u hu
    simp only [moduleEvaluationTrace, h1, List.mem_map]
    exact ⟨u, hu, rfl⟩

/-- Witness for C10: a concrete importer that calls createVisual sees both
units initialized first. -/
theorem module_import_bootstraps_before_importer_code_witness :
    (∀ u ∈ [sampleUnitA, sampleUnitB], u.throws = false) ∧
    (importerProcessTrace [sampleUnitA, sampleUnitB] emptyTable ["createVisual"] =
        [sampleUnitA, sampleUnitB].map ModuleEvent.initializedUnit ++
          ["createVisual"].map ModuleEvent.augmentedCall ∧
      ∀ u ∈ [sampleUnitA, sampleUnitB],
        ModuleEvent.initializedUnit u ∈
          moduleEvaluationTrace [sampleUnitA, sampleUnitB] emptyTable) :=
  ⟨by decide,
   module_import_bootstraps_before_importer_code
     [sampleUnitA, sampleUnitB] emptyTable ["createVisual"] (by decide)⟩

/-- Claim C5: for the augmented operations whose declared result type
carries an Error Value (addDataField and removeDataField on a Visual), a
remote-reported domain failure yields a resolved outcome carrying exactly
that Error Value — not a rejection, not a thrown exception (the embedding
is total), and not a silent no-op (the resolved payload is `some`); in
particular removeDataField against the stub remote side with an index at
or past the role's current field count resolves with the out-of-range
Error Value. -/
theorem remote_domain_failure_resolves_with_error_value
    (chA : AddFieldRequest → RemoteOutcome Unit)
    (chR : RemoveFieldRequest → RemoteOutcome Unit)
    (visual dataRole : String) (field : FieldTarget) (index : Nat)
    (eA eR : IError)
    (hA : chA { visualIdentity := visual, dataRole := dataRole, field := field } =
      RemoteOutcome.remoteError eA)
    (hR : chR { visualIdentity := visual, dataRole := dataRole, index := index } =
      RemoteOutcome.remoteError eR) :
    addDataField chA visual dataRole field = MethodResult.resolved (some eA) ∧
    removeDataField chR visual dataRole index = MethodResult.resolved (some eR) ∧
    ∀ count idx, count ≤ idx →
      removeDataField (stubRemoveChannel count) visual dataRole idx =
        MethodResult.resolved (some { message := "index out of range" }) := by
  refine ⟨?_, ?_, ?_⟩
  · simp [addDataField, hA, mapErrorCarrying]
  · simp [removeDataField, hR, mapErrorCarrying]
  · intro count idx hle
    simp [removeDataField, stubRemoveChannel, Nat.not_lt.mpr hle, mapErrorCarrying]

/-- Witness for C5: remove data field with index 5 on a role holding 2
fields resolves with the out-of-range Error Value. -/
theorem remote_domain_failure_resolves_with_error_value_witness :
    ((fun _ : AddFieldRequest => RemoteOutcome.remoteError (α := Unit) { message := "incompatible field" })
        { visualIdentity := "v1", dataRole := "Values", field := 7 } =
      RemoteOutcome.remoteError { message := "incompatible field" } ∧
      stubRemoveChannel 2 { visualIdentity := "v1", dataRole := "Values", index := 5 } =
        RemoteOutcome.remoteError { message := "index out of range" }) ∧
    (addDataField (fun _ => RemoteOutcome.remoteError { message := "incompatible field" })
        "v1" "Values" 7 = MethodResult.resolved (some { message := "incompatible field" }) ∧
      removeDataField (stubRemoveChannel 2) "v1" "Values" 5 =
        MethodResult.resolved (some { message := "index out of range" }) ∧
      ∀ count idx, count ≤ idx →
        removeDataField (stubRemoveChannel count) "v1" "Values" idx =
          MethodResult.resolved (some { message := "index out of range" })) :=
  ⟨⟨by decide, by decide⟩,
   remote_domain_failure_resolves_with_error_value
     (fun _ => RemoteOutcome.remoteError { message := "incompatible field" })
     (stubRemoveChannel 2) "v1" "Values" 7 5
     { message := "incompatible field" } { message := "index out of range" }
     (by decide) (by decide)⟩

/-- Claim C6: for addDataField and removeDataField, a successful
(non-failing) completion resolves with no value: the resolved payload is
`none`, carrying an Error Value only on failure. -/
theorem errorCarrying_success_resolves_with_no_value
    (chA : AddFieldRequest → RemoteOutcome Unit)
    (chR : RemoveFieldRequest → RemoteOutcome Unit)
    (visual dataRole : String) (field : FieldTarget) (index : Nat)
    (hA : chA { visualIdentity := visual, dataRole := dataRole, field := field } =
      RemoteOutcome.success ())
    (hR : chR { visualIdentity := visual, dataRole := dataRole, index := index } =
      RemoteOutcome.success ()) :
    addDataField chA visual dataRole field = MethodResult.resolved none ∧
    removeDataField chR visual dataRole index = MethodResult.resolved none := by
  constructor
  · simp [addDataField, hA, mapErrorCarrying]
  · simp [removeDataField, hR, mapErrorCarrying]

/-- Witness for C6: against the stub remote side, removing an in-range
index (and adding a field to an accepting remote) resolves with `none`. -/
theorem errorCarrying_success_resolves_with_no_value_witness :
    ((fun _ : AddFieldRequest => RemoteOutcome.success ())
        { visualIdentity := "v1", dataRole := "Values", field := 7 } =
      RemoteOutcome.success () ∧
      stubRemoveChannel 2 { visualIdentity := "v1", dataRole := "Values", index := 1 } =
        RemoteOutcome.success ()) ∧
    (addDataField (fun _ => RemoteOutcome.success ()) "v1" "Values" 7 =
        MethodResult.resolved none ∧
      removeDataField (stubRemoveChannel 2) "v1" "Values" 1 =
        MethodResult.resolved none) :=
  ⟨⟨by decide, by decide⟩,
   errorCarrying_success_resolves_with_no_value
     (fun _ => RemoteOutcome.success ()) (stubRemoveChannel 2)
     "v1" "Values" 7 1 (by decide) (by decide)⟩

/-- Claim C7: for every augmented method (all are defined through
`mapOutcome` or `mapErrorCarrying`, shown here also on createVisual,
addDataField and removeDataField concretely), a transport-level failure of
the Remote Operation Channel yields a rejected outcome whose kind
`RejectKind.transport` is distinguishable from a remote-reported error
`RejectKind.remoteErr`, and never a resolved (partial or success-shaped)
outcome. -/
theorem transport_failure_always_rejects_distinguishably
    {α : Type} (o : RemoteOutcome α) (msg : String)
    (chC : CreateVisualRequest → RemoteOutcome VisualResponse)
    (chA : AddFieldRequest → RemoteOutcome Unit)
    (chR : RemoveFieldRequest → RemoteOutcome Unit)
    (page visualType visual dataRole : String)
    (layout : Option VisualLayout) (field : FieldTarget) (index : Nat)
    (ho : o = RemoteOutcome.transportFailure msg)
    (hC : chC { pageIdentity := page, visualType := visualType, layout := layout } =
      RemoteOutcome.transportFailure msg)
    (hA : chA { visualIdentity := visual, dataRole := dataRole, field := field } =
      RemoteOutcome.transportFailure msg)
    (hR : chR { visualIdentity := visual, dataRole := dataRole, index := index } =
      RemoteOutcome.transportFailure msg) :
    mapOutcome o = MethodResult.rejected (RejectKind.transport msg) ∧
    mapErrorCarrying o = MethodResult.rejected (RejectKind.transport msg) ∧
    (∀ v : α, mapOutcome o ≠ MethodResult.resolved v) ∧
    (∀ v, mapErrorCarrying o ≠ MethodResult.resolved v) ∧
    createVisual chC page visualType layout =
      MethodResult.rejected (RejectKind.transport msg) ∧
    addDataField chA visual dataRole field =
      MethodResult.rejected (RejectKind.transport msg) ∧
    removeDataField chR visual dataRole index =
      MethodResult.rejected (RejectKind.transport msg) ∧
    ∀ e, RejectKind.transport msg ≠ RejectKind.remoteErr e := by
  subst ho
  refine ⟨rfl, rfl, ?_, ?_, ?_, ?_, ?_, ?_⟩
  · intro v h
    exact absurd h (by simp [mapOutcome])
  · intro v h
    exact absurd h (by simp [mapErrorCarrying])
  · simp [createVisual, hC, mapOutcome]
  · simp [addDataField, hA, mapErrorCarrying]
  · simp [removeDataField, hR, mapErrorCarrying]
  · intro e h
    exact absurd h (by simp)

/-- Witness for C7: a concrete unreachable remote side makes every modelled
method reject with the transport kind. -/
theorem transport_failure_always_rejects_distinguishably_witness :
    ((RemoteOutcome.transportFailure (α := Unit) "remote unreachable" =
        RemoteOutcome.transportFailure "remote unreachable") ∧
      (fun _ : CreateVisualRequest =>
          RemoteOutcome.transportFailure (α := VisualResponse) "remote unreachable")
        { pageIdentity := "p", visualType := "barChart", layout := none } =
        RemoteOutcome.transportFailure "remote unreachable") ∧
    (createVisual
        (fun _ => RemoteOutcome.transportFailure "remote unreachable")
        "p" "barChart" none =
        MethodResult.rejected (RejectKind.transport "remote unreachable") ∧
      addDataField (fun _ => RemoteOutcome.transportFailure "remote unreachable")
        "v1" "Values" 7 =
        MethodResult.rejected (RejectKind.transport "remote unreachable") ∧
      removeDataField (fun _ => RemoteOutcome.transportFailure "remote unreachable")
        "v1" "Values" 0 =
        MethodResult.rejected (RejectKind.transport "remote unreachable") ∧
      ∀ e, RejectKind.transport "remote unreachable" ≠ RejectKind.remoteErr e) :=
  ⟨⟨by decide, by decide⟩,
   (fun full => ⟨full.2.2.2.2.1, full.2.2.2.2.2.1, full.2.2.2.2.2.2.1, full.2.2.2.2.2.2.2⟩)
     (transport_failure_always_rejects_distinguishably
       (RemoteOutcome.transportFailure (α := Unit) "remote unreachable")
       "remote unreachable"
       (fun _ => RemoteOutcome.transportFailure "remote unreachable")
       (fun _ => RemoteOutcome.transportFailure "remote unreachable")
       (fun _ => RemoteOutcome.transportFailure "remote unreachable")
       "p" "barChart" "v1" "Values" none 7 0
       (by decide) (by decide) (by decide) (by decide))⟩

/-- Claim C8: createVisual with no layout argument does not fail locally
(no local-validation rejection is possible for any remote side), issues
exactly the request with an absent layout — deferring best-effort placement
to the remote side — and, given a remote side that accepts the absent
layout, resolves with the valid created-visual response. -/
theorem createVisual_without_layout_succeeds
    (ch : CreateVisualRequest → RemoteOutcome VisualResponse)
    (page visualType : String) (resp : VisualResponse)
    (hch : ch { pageIdentity := page, visualType := visualType, layout := none } =
      RemoteOutcome.success resp) :
    createVisual ch page visualType none = MethodResult.resolved resp ∧
    createVisual ch page visualType none =
      mapOutcome (ch { pageIdentity := page, visualType := visualType, layout := none }) ∧
    ∀ ch2 : CreateVisualRequest → RemoteOutcome VisualResponse, ∀ msg,
      createVisual ch2 page visualType none ≠
        MethodResult.rejected (RejectKind.localCheck msg) := by
  refine ⟨by simp [createVisual, hch, mapOutcome], rfl, ?_⟩
  intro ch2 msg
  cases hc : ch2 { pageIdentity := page, visualType := visualType, layout := none } <;>
    simp [createVisual, mapOutcome, hc]

/-- Witness for C8: the stub remote side accepting an absent layout yields
a resolved created-visual response. -/
theorem createVisual_without_layout_succeeds_witness :
    (stubCreateChannel { pageIdentity := "p", visualType := "barChart", layout := none } =
      RemoteOutcome.success { visualName := "barChartVisual" }) ∧
    (createVisual stubCreateChannel "p" "barChart" none =
        MethodResult.resolved { visualName := "barChartVisual" } ∧
      createVisual stubCreateChannel "p" "barChart" none =
        mapOutcome (stubCreateChannel
          { pageIdentity := "p", visualType := "barChart", layout := none }) ∧
      ∀ ch2 : CreateVisualRequest → RemoteOutcome VisualResponse, ∀ msg,
        createVisual ch2 "p" "barChart" none ≠
          MethodResult.rejected (RejectKind.localCheck msg)) :=
  ⟨by decide,
   createVisual_without_layout_succeeds stubCreateChannel "p" "barChart"
     { visualName := "barChartVisual" } (by decide)⟩

/-- Claim C9: after a successful bootstrap, every method triple installed
by a registered unit is present and invocable on every Host Handle instance
of the matching kind — whatever its identity and whether it was constructed
before or after bootstrap — because lookup goes through the shared
type-level behavior table: lookup on two instances of the same kind is
identical for every method name. -/
theorem augmented_methods_present_instance_independent
    (exts : List ExtensionUnit) (t t2 : BehaviorTable) (tr : List ExtensionUnit)
    (u : ExtensionUnit) (p : TargetType × MethodName × MethodImpl)
    (hboot : startAuthoring exts t = (tr, Except.ok t2))
    (hu : u ∈ exts) (hp : p ∈ u.installs) :
    (∀ h : HostHandle, h.kind = p.1 → (methodOn t2 h p.2.1).isSome) ∧
    (∀ h1 h2 : HostHandle, h1.kind = h2.kind →
      ∀ m : MethodName, methodOn t2 h1 m = methodOn t2 h2 m) := by
  obtain ⟨-, ht⟩ := startAuthoring_ok_inv exts t t2 tr hboot
  constructor
  · intro h hk
    have hmem := mem_allInstalls exts u p hu hp
    have hsome := lastInstall_isSome_of_mem (allInstalls exts) p hmem
    show (t2 h.kind p.2.1).isSome
    rw [ht, installAll_eq_applyInstalls]
    show (applyInstalls (allInstalls exts) t h.kind p.2.1).isSome
    rw [applyInstalls_apply, hk]
    cases hl : lastInstall (allInstalls exts) p.1 p.2.1 with
    | some v => simp
    | none =>
      rw [hl] at hsome
      exact absurd hsome (by simp)
  · intro h1 h2 hk m
    show t2 h1.kind m = t2 h2.kind m
    rw [hk]

/-- Witness for C9: after bootstrapping the concrete registry, addDataField
is present on a visual handle constructed before bootstrap, and lookup
agrees between it and one constructed after. -/
theorem augmented_methods_present_instance_independent_witness :
    (startAuthoring [sampleUnitA, sampleUnitB] emptyTable =
      ([sampleUnitA, sampleUnitB],
        Except.ok (installAll [sampleUnitA, sampleUnitB] emptyTable)) ∧
      sampleUnitB ∈ [sampleUnitA, sampleUnitB] ∧
      (TargetType.visual, "addDataField", 20) ∈ sampleUnitB.installs) ∧
    ((∀ h : HostHandle, h.kind = TargetType.visual →
        (methodOn (installAll [sampleUnitA, sampleUnitB] emptyTable) h
          "addDataField").isSome) ∧
      (∀ h1 h2 : HostHandle, h1.kind = h2.kind → ∀ m : MethodName,
        methodOn (installAll [sampleUnitA, sampleUnitB] emptyTable) h1 m =
          methodOn (installAll [sampleUnitA, sampleUnitB] emptyTable) h2 m)) :=
  ⟨⟨startAuthoring_noThrow [sampleUnitA, sampleUnitB] emptyTable (by decide),
    by decide, by decide⟩,
   augmented_methods_present_instance_independent
     [sampleUnitA, sampleUnitB] emptyTable
     (installAll [sampleUnitA, sampleUnitB] emptyTable)
     [sampleUnitA, sampleUnitB] sampleUnitB
     (TargetType.visual, "addDataField", 20)
     (startAuthoring_noThrow [sampleUnitA, sampleUnitB] emptyTable (by decide))
     (by decide) (by decide)⟩

end PowerBIAuthoring
